import Mathlib

set_option maxRecDepth 100000

/-!
Verification of the C++ extraction and hosting-artifact assembly pipeline of
`compiler+runtime/wasm-examples/gen_wasm_cpp.py`.

Strings are modelled as lists of characters.  The Python string primitives the
script uses (`split('\n')`, `strip`, `startswith`, `'\n'.join`,
`textwrap.dedent`) are embedded as executable functions, and its two regular
expressions are embedded as deterministic scanners: each regex alternates
literals with the character classes `\s` and `[A-Za-z0-9_]`, which are
pairwise disjoint and disjoint from the literals that follow them, so greedy
matching with backtracking coincides with maximal-run matching.
-/

/-- Strings are modelled as lists of characters. -/
abbrev Str := List Char

/-- Python `str.isspace` / regex `\s`, restricted to the ASCII range
(the script only ever sees ASCII compiler output). -/
def pyIsSpace (c : Char) : Bool :=
  c = ' ' || c = '\t' || c = '\n' || c = '\r' || c = '\x0b' || c = '\x0c'

/-- Python `source.split('\n')`: split on every newline, keeping empty
pieces, so the result is always non-empty. -/
def splitOnNl : Str → List Str
  | [] => [[]]
  | c :: cs =>
    if c = '\n' then [] :: splitOnNl cs
    else
      match splitOnNl cs with
      | [] => [[c]]
      | l :: ls => (c :: l) :: ls

/-- Python `'\n'.join(lines)`. -/
def joinNl : List Str → Str
  | [] => []
  | [l] => l
  | l :: ls => l ++ '\n' :: joinNl ls

/-- Python `str.strip()`: drop leading and trailing whitespace. -/
def pyStrip (s : Str) : Str :=
  ((s.dropWhile pyIsSpace).reverse.dropWhile pyIsSpace).reverse

/-- Python `s.startswith(p)`: `strStarts p s` holds when `p` heads `s`. -/
def strStarts : Str → Str → Bool
  | [], _ => true
  | _ :: _, [] => false
  | p :: ps, c :: cs => p = c && strStarts ps cs

/-- The tuple of allowed line starts in `extract_cpp`, transcribed verbatim
from the script (`line.strip().startswith((...))`). -/
def allowList : List Str :=
  ["namespace", "struct", "\x7b", "\x7d", "using",
   "auto", "return", "jank::", "object_ref",
   "//", "/*", "*", "#", "explicit", "virtual",
   "final", "override", ".", ",", ")", "(",
   ";", "if", "else", "for", "while"].map String.data

/-- `s.startswith(allow_tuple)` for the fixed tuple above. -/
def startsWithAny (s : Str) : Bool :=
  allowList.any fun p => strStarts p s

/-- The break condition of the accumulation loop in `extract_cpp`, for one
line (the `cpp_lines` non-emptiness guard is kept in `scanLoop`):
the stripped line starts with no allowed construct, and the line is
non-empty, does not start with whitespace, and does not strip to `}`. -/
def breaksScan (line : Str) : Bool :=
  !startsWithAny (pyStrip line) &&
    match line with
    | [] => false
    | c :: _ => !pyIsSpace c && !(pyStrip line == [ '\x7d' ])

/-- The accumulation loop of `extract_cpp`: append every line until, once at
least one line has been kept, a line satisfies the break condition. -/
def scanLoop (acc : List Str) : List Str → List Str
  | [] => acc
  | line :: rest =>
    if !acc.isEmpty && breaksScan line then acc
    else scanLoop (acc ++ [line]) rest

/-- `'\n'.join(cpp_lines).strip()`: the trimmed candidate fragment. -/
def fragmentOf (source : Str) : Str :=
  pyStrip (joinNl (scanLoop [] (splitOnNl source)))

/-- The regex class `[A-Za-z0-9_]`. -/
def pyIsWord (c : Char) : Bool :=
  ('A' ≤ c && c ≤ 'Z') || ('a' ≤ c && c ≤ 'z') || ('0' ≤ c && c ≤ '9') || c = '_'

/-- Consume a literal: `dropLit p s` returns the rest of `s` after the
leading occurrence of `p`, if `p` heads `s`. -/
def dropLit : Str → Str → Option Str
  | [], s => some s
  | _ :: _, [] => none
  | p :: ps, c :: cs => if p = c then dropLit ps cs else none

/-- Match of `namespace\s+([A-Za-z0-9_]+)\s*\{` anchored at the start of
`s`, returning the captured identifier. -/
def matchNsAt (s : Str) : Option Str :=
  match dropLit "namespace".data s with
  | none => none
  | some r1 =>
    if (r1.takeWhile pyIsSpace).isEmpty then none
    else
      let r2 := r1.dropWhile pyIsSpace
      let ident := r2.takeWhile pyIsWord
      if ident.isEmpty then none
      else
        match (r2.dropWhile pyIsWord).dropWhile pyIsSpace with
        | '\x7b' :: _ => some ident
        | _ => none

/-- `re.search` for the namespace pattern: the leftmost match wins. -/
def nsSearch : Str → Option Str
  | [] => none
  | c :: cs =>
    match matchNsAt (c :: cs) with
    | some ident => some ident
    | none => nsSearch cs

/-- Match of `struct\s+([A-Za-z0-9_]+)\s*:\s*jank::runtime::obj::jit_function`
anchored at the start of `s`, returning the captured identifier and the
remainder of the text after the whole match. -/
def matchStructAt (s : Str) : Option (Str × Str) :=
  match dropLit "struct".data s with
  | none => none
  | some r1 =>
    if (r1.takeWhile pyIsSpace).isEmpty then none
    else
      let r2 := r1.dropWhile pyIsSpace
      let ident := r2.takeWhile pyIsWord
      if ident.isEmpty then none
      else
        match (r2.dropWhile pyIsWord).dropWhile pyIsSpace with
        | ':' :: r5 =>
          match dropLit "jank::runtime::obj::jit_function".data (r5.dropWhile pyIsSpace) with
          | none => none
          | some r6 => some (ident, r6)
        | _ => none

/-- `re.finditer` for the struct pattern, fuelled: scan left to right,
resuming after the end of each match.  Every step consumes at least one
character, so fuel `s.length` is exact (see `structScanAux_stable`). -/
def structScanAux : Nat → Str → List Str
  | 0, _ => []
  | _ + 1, [] => []
  | n + 1, c :: cs =>
    match matchStructAt (c :: cs) with
    | some (ident, rest) => ident :: structScanAux n rest
    | none => structScanAux n cs

/-- All struct-pattern matches of `s`, in textual order. -/
def structScan (s : Str) : List Str :=
  structScanAux s.length s

/-- The three extraction failures raised by `extract_cpp`. -/
inductive ExtractErr where
  | EmptyOutput
  | NamespaceNotFound
  | EntryConstructNotFound
deriving DecidableEq

deriving instance DecidableEq for Except

/-- `extract_cpp`: trim the scanned fragment, fail on emptiness, then locate
the first namespace match and the last struct match. -/
def extract_cpp (source : Str) : Except ExtractErr (Str × Str × Str) :=
  let src := fragmentOf source
  if src.isEmpty then .error .EmptyOutput
  else
    match nsSearch src with
    | none => .error .NamespaceNotFound
    | some ns =>
      match structScan src with
      | [] => .error .EntryConstructNotFound
      | m :: ms => .ok (src, ns, (m :: ms).getLastD [])

/-- The regex class `[ \t]` used by `textwrap.dedent`. -/
def isSpTab (c : Char) : Bool := c = ' ' || c = '\t'

/-- A line "consisting solely of whitespace" in `textwrap.dedent`'s sense:
non-empty and made of spaces and tabs only. -/
def wsOnly (l : Str) : Bool := !l.isEmpty && l.all isSpTab

/-- `dedent`'s first phase: whitespace-only lines are normalized to empty. -/
def blankWsOnly (ls : List Str) : List Str := ls.map fun l => if wsOnly l then [] else l

/-- The leading `[ \t]*` run of a line. -/
def lineIndent (l : Str) : Str := l.takeWhile isSpTab

/-- Longest common prefix of two strings. -/
def commonPfx : Str → Str → Str
  | a :: as, b :: bs => if a = b then a :: commonPfx as bs else []
  | _, _ => []

/-- `dedent`'s margin: the longest common indent over the lines containing a
character other than space or tab (the regex `(^[ \t]*)(?:[^ \t\n])`). -/
def marginOf (ls : List Str) : Str :=
  match ls.filterMap fun l => if l.any (fun c => !isSpTab c) then some (lineIndent l) else none with
  | [] => []
  | i :: is => is.foldl commonPfx i

/-- `dedent`'s removal phase: strip the margin from every line that starts
with it; a no-op when the margin is empty, as in `textwrap`. -/
def removeMargin (m : Str) (ls : List Str) : List Str :=
  if m.isEmpty then ls
  else ls.map fun l => if strStarts m l then l.drop m.length else l

/-- `textwrap.dedent`. -/
def dedent (s : Str) : Str :=
  joinNl (removeMargin (marginOf (blankWsOnly (splitOnNl s))) (blankWsOnly (splitOnNl s)))

/-- The margin `textwrap.dedent` computes for `s`. -/
def dedentMargin (s : Str) : Str := marginOf (blankWsOnly (splitOnNl s))

/-- The f-string template of `main`, line by line, with the three holes
(`header_include.as_posix()`, `cpp_source`, and the qualified
`namespace`/`struct_name` pair) substituted; joining these lines with
newlines is exactly the f-string for all hole values. -/
def templateLines (h f ns en : Str) : List Str :=
  [ [],
    "        #include \"".data ++ h ++ "\"".data,
    "        #ifdef __EMSCRIPTEN__".data,
    "        #  include <emscripten/emscripten.h>".data,
    "        #endif".data,
    [],
    "        ".data ++ f,
    [],
    "        namespace \x7b".data,
    "          using jank_entry_t = ::".data ++ ns ++ "::".data ++ en ++ ";".data,
    "        \x7d".data,
    [],
    "        extern \"C\" \x7b".data,
    [],
    "        #ifdef __EMSCRIPTEN__".data,
    "        EMSCRIPTEN_KEEPALIVE".data,
    "        #endif".data,
    "        void jank_run_main() \x7b".data,
    "          auto fn = jank::runtime::make_box<jank_entry_t>();".data,
    "          fn->call();".data,
    "        \x7d".data,
    [],
    "        int main() \x7b".data,
    "          jank_run_main();".data,
    "          return 0;".data,
    "        \x7d".data,
    [],
    "        \x7d".data,
    "        ".data ]

/-- The rendered f-string of `main`, before `dedent`. -/
def renderTemplate (h f ns en : Str) : Str := joinNl (templateLines h f ns en)

/-- `dedent(f"...").strip() + "\n"`: the full artifact text written by `main`. -/
def buildDriver (h f ns en : Str) : Str :=
  pyStrip (dedent (renderTemplate h f ns en)) ++ [ '\n' ]

/-- Number of positions of `s` at which `p` occurs. -/
def countOccur (p : Str) : Str → Nat
  | [] => 0
  | c :: cs => (if strStarts p (c :: cs) then 1 else 0) + countOccur p cs

/-- Python's substring test `p in s`. -/
def hasOccur (p : Str) : Str → Bool
  | [] => strStarts p []
  | c :: cs => strStarts p (c :: cs) || hasOccur p cs

/-- The parts of `main`'s environment that determine its behaviour: the two
precondition checks, the subprocess outcome with its captured output
channels, and the header reference computed for the output path. -/
structure Env where
  jankBinaryExists : Bool
  jankFileExists : Bool
  procExitOk : Bool
  procStdout : Str
  procStderr : Str
  headerInclude : Str

/-- The fatal failures of `main`, following the spec's taxonomy. -/
inductive MainErr where
  | PrerequisiteMissing
  | SubprocessFailure
  | ExtractFail (e : ExtractErr)
deriving DecidableEq

/-- The filesystem effects `main` can perform, in program order. -/
inductive FsAction where
  | mkdirParents
  | writeOutput (content : Str)
deriving DecidableEq

/-- `proc.stdout or proc.stderr`. -/
def pickInput (env : Env) : Str :=
  if env.procStdout.isEmpty then env.procStderr else env.procStdout

/-- `main`, with its I/O steps reified in program order: check the compiler
binary, check the input file, run the subprocess (`check=True`), extract,
and only then create the output's parent directories and write the fully
rendered driver. -/
def mainModel (env : Env) : Except MainErr (List FsAction) :=
  if !env.jankBinaryExists then .error .PrerequisiteMissing
  else if !env.jankFileExists then .error .PrerequisiteMissing
  else if !env.procExitOk then .error .SubprocessFailure
  else
    match extract_cpp (pickInput env) with
    | .error e => .error (.ExtractFail e)
    | .ok (f, ns, en) =>
      .ok [FsAction.mkdirParents, FsAction.writeOutput (buildDriver env.headerInclude f ns en)]

/-- The contents written to the output file over a run of `main`. -/
def writesOf : Except MainErr (List FsAction) → List Str
  | .error _ => []
  | .ok acts => acts.filterMap fun a =>
      match a with
      | .writeOutput c => some c
      | _ => none

example : fragmentOf "namespace a \x7b\n\x7d\ndone".data = "namespace a \x7b\n\x7d".data := by decide

example :
    extract_cpp "namespace demo \x7b\nstruct f0 : jank::runtime::obj::jit_function \x7b\x7d;\nstruct f1 : jank::runtime::obj::jit_function \x7b\x7d;\n\x7d\nnil".data
      = .ok ("namespace demo \x7b\nstruct f0 : jank::runtime::obj::jit_function \x7b\x7d;\nstruct f1 : jank::runtime::obj::jit_function \x7b\x7d;\n\x7d".data,
             "demo".data, "f1".data) := by decide

example :
    buildDriver "../minimal_jank_runtime.hpp".data
      "namespace demo_42 \x7b\nstruct entry_fn : jank::runtime::obj::jit_function \x7b\n  void call() \x7b\x7d\n\x7d;\n\x7d".data
      "demo_42".data "entry_fn".data
    = ("#include \"../minimal_jank_runtime.hpp\"\n        #ifdef __EMSCRIPTEN__\n        #  include <emscripten/emscripten.h>\n        #endif\n\n        namespace demo_42 \x7b\nstruct entry_fn : jank::runtime::obj::jit_function \x7b\n  void call() \x7b\x7d\n\x7d;\n\x7d\n\n        namespace \x7b\n          using jank_entry_t = ::demo_42::entry_fn;\n        \x7d\n\n        extern \"C\" \x7b\n\n        #ifdef __EMSCRIPTEN__\n        EMSCRIPTEN_KEEPALIVE\n        #endif\n        void jank_run_main() \x7b\n          auto fn = jank::runtime::make_box<jank_entry_t>();\n          fn->call();\n        \x7d\n\n        int main() \x7b\n          jank_run_main();\n          return 0;\n        \x7d\n\n        \x7d\n").data := by decide

example :
    hasOccur "namespace a \x7b\n int x;\n \x7d".data
      (buildDriver "h.hpp".data "namespace a \x7b\n int x;\n \x7d".data "a".data "b".data) = false := by
  decide

example :
    countOccur "int main()".data
      (buildDriver "h.hpp".data "namespace a \x7b\nint main() \x7b\x7d\n\x7d".data "a".data "b".data) = 2 := by
  decide

/-- The scan loop only ever appends: its result extends the accumulator with
an initial segment of the remaining lines. -/
theorem scanLoop_take (ls : List Str) : ∀ acc, ∃ n, scanLoop acc ls = acc ++ ls.take n := by
  induction ls with
  | nil => exact fun acc => ⟨0, by simp [scanLoop]⟩
  | cons line rest ih =>
    intro acc
    by_cases h : (!acc.isEmpty && breaksScan line) = true
    · exact ⟨0, by simp [scanLoop, h]⟩
    · obtain ⟨n, hn⟩ := ih (acc ++ [line])
      exact ⟨n + 1, by simp [scanLoop, h, hn]⟩

/-- `split('\n')` never returns an empty list of lines. -/
theorem splitOnNl_ne_nil (s : Str) : splitOnNl s ≠ [] := by
  cases s with
  | nil => simp [splitOnNl]
  | cons c cs =>
    unfold splitOnNl
    split
    · simp
    · split <;> simp

/-- C10: the accumulated candidate fragment is always a contiguous prefix of
the input's line sequence starting at the very first line: the scan result is
an initial segment of the lines, the first line is accumulated
unconditionally (the heads agree), and an empty line never satisfies the
break condition, so blank lines before the terminating line are retained. -/
theorem scan_prefix_of_lines (s : Str) :
    (∃ n, scanLoop [] (splitOnNl s) = (splitOnNl s).take n) ∧
    (scanLoop [] (splitOnNl s)).head? = (splitOnNl s).head? ∧
    breaksScan [] = false := by
  refine ⟨?_, ?_, by decide⟩
  · obtain ⟨n, hn⟩ := scanLoop_take (splitOnNl s) []
    exact ⟨n, by simpa using hn⟩
  · cases h : splitOnNl s with
    | nil => exact absurd h (splitOnNl_ne_nil s)
    | cons l ls =>
      have h1 : scanLoop [] (l :: ls) = scanLoop [l] ls := by simp [scanLoop]
      obtain ⟨n, hn⟩ := scanLoop_take ls [l]
      rw [h1, hn]
      simp

/-- The break condition, unfolded into the four conjuncts of the spec: the
line is non-empty, starts with a non-whitespace character, does not strip to
a lone closing brace, and its stripped form starts with no allowed prefix. -/
theorem breaksScan_iff (line : Str) :
    breaksScan line = true ↔
      ((∃ c l, line = c :: l ∧ pyIsSpace c = false) ∧
        pyStrip line ≠ [ '\x7d' ] ∧ startsWithAny (pyStrip line) = false) := by
  cases line with
  | nil => simp [breaksScan]
  | cons c l =>
    simp only [breaksScan, Bool.and_eq_true, Bool.not_eq_true', beq_eq_false_iff_ne,
      List.cons.injEq]
    constructor
    · rintro ⟨h1, h2, h3⟩
      exact ⟨⟨c, l, ⟨rfl, rfl⟩, h2⟩, h3, h1⟩
    · rintro ⟨⟨c', l', ⟨rfl, rfl⟩, h2⟩, h3, h1⟩
      exact ⟨h1, h2, h3⟩

/-- C4: once at least one line has been accumulated, the scan terminates at a
line — excluding it and all later lines — exactly when that line is
non-empty, its first character is not whitespace, its stripped form is not a
lone closing brace, and its stripped form begins with no allowed prefix. -/
theorem scan_termination_iff (acc : List Str) (line : Str) (rest : List Str)
    (hacc : acc ≠ []) :
    scanLoop acc (line :: rest) = acc ↔
      ((∃ c l, line = c :: l ∧ pyIsSpace c = false) ∧
        pyStrip line ≠ [ '\x7d' ] ∧ startsWithAny (pyStrip line) = false) := by
  rw [← breaksScan_iff]
  have hE : acc.isEmpty = false := by
    cases acc with
    | nil => exact absurd rfl hacc
    | cons a as => rfl
  constructor
  · intro h
    by_contra hb
    have hb' : breaksScan line = false := by
      cases hB : breaksScan line
      · rfl
      · exact absurd hB hb
    have h2 : scanLoop acc (line :: rest) = scanLoop (acc ++ [line]) rest := by
      simp [scanLoop, hb']
    obtain ⟨n, hn⟩ := scanLoop_take rest (acc ++ [line])
    rw [h2, hn] at h
    have hlen := congrArg List.length h
    simp [List.length_append] at hlen
  · intro h
    simp [scanLoop, hE, h]

/-- Witness for the termination characterization: a trailing `done` line
after accumulated source is excluded. -/
theorem scan_termination_iff_witness :
    scanLoop ["int x;".data] ["done".data] = ["int x;".data] :=
  (scan_termination_iff ["int x;".data] "done".data [] (by decide)).mpr
    ⟨⟨'d', "one".data, by decide, by decide⟩, by decide, by decide⟩

/-- The head of `dropWhile p` falsifies `p`. -/
theorem head?_dropWhile_false (p : Char → Bool) (l : Str) :
    ∀ c, (l.dropWhile p).head? = some c → p c = false := by
  induction l with
  | nil => intro c h; simp [List.dropWhile] at h
  | cons a as ih =>
    intro c h
    rw [List.dropWhile_cons] at h
    split at h
    · exact ih c h
    next hp =>
      have hac : a = c := by simpa using h
      subst hac
      exact Bool.eq_false_iff.mpr hp

/-- When `dropWhile p` keeps anything, it keeps the last element. -/
theorem getLast?_dropWhile (p : Char → Bool) (l : Str) :
    l.dropWhile p ≠ [] → (l.dropWhile p).getLast? = l.getLast? := by
  induction l with
  | nil => simp
  | cons a as ih =>
    intro h
    by_cases hp : p a = true
    · rw [List.dropWhile_cons, if_pos hp] at h ⊢
      cases as with
      | nil => simp [List.dropWhile] at h
      | cons b bs =>
        rw [List.getLast?_cons_cons]
        exact ih h
    · rw [List.dropWhile_cons, if_neg hp]

/-- The first character of a stripped string is not whitespace. -/
theorem pyStrip_head? (s : Str) : ∀ c, (pyStrip s).head? = some c → pyIsSpace c = false := by
  intro c h
  unfold pyStrip at h
  rw [List.head?_reverse] at h
  have hne : ((s.dropWhile pyIsSpace).reverse.dropWhile pyIsSpace) ≠ [] := by
    intro h0
    rw [h0] at h
    simp at h
  rw [getLast?_dropWhile _ _ hne, List.getLast?_reverse] at h
  exact head?_dropWhile_false _ _ c h

/-- The last character of a stripped string is not whitespace. -/
theorem pyStrip_getLast? (s : Str) : ∀ c, (pyStrip s).getLast? = some c → pyIsSpace c = false := by
  intro c h
  unfold pyStrip at h
  rw [List.getLast?_reverse] at h
  exact head?_dropWhile_false _ _ c h

/-- Non-empty fragments have `isEmpty = false`. -/
theorem fragment_isEmpty_false {source : Str} (h : fragmentOf source ≠ []) :
    (fragmentOf source).isEmpty = false := by
  cases hf : fragmentOf source with
  | nil => exact absurd hf h
  | cons a as => rfl

/-- With a non-empty fragment, extraction never reports `EmptyOutput`. -/
theorem extract_ne_emptyErr (source : Str) (h : fragmentOf source ≠ []) :
    extract_cpp source ≠ .error ExtractErr.EmptyOutput := by
  simp only [extract_cpp, fragment_isEmpty_false h, Bool.false_eq_true, if_false]
  cases hns : nsSearch (fragmentOf source) with
  | none => simp
  | some ns =>
    cases hst : structScan (fragmentOf source) with
    | nil => simp
    | cons m ms => simp

/-- C3: after the line scan the accumulated fragment is trimmed — its first
and last characters, when present, are non-whitespace — and extraction fails
with `EmptyOutput` exactly when the trimmed fragment is the empty string. -/
theorem trim_and_empty_output (source : Str) :
    (extract_cpp source = .error ExtractErr.EmptyOutput ↔ fragmentOf source = []) ∧
    (∀ c, (fragmentOf source).head? = some c → pyIsSpace c = false) ∧
    (∀ c, (fragmentOf source).getLast? = some c → pyIsSpace c = false) := by
  refine ⟨⟨?_, ?_⟩, fun c h => pyStrip_head? _ c h, fun c h => pyStrip_getLast? _ c h⟩
  · intro h
    by_contra hne
    exact extract_ne_emptyErr source hne h
  · intro h
    have hE : (fragmentOf source).isEmpty = true := by rw [h]; rfl
    simp [extract_cpp, hE]

/-- Witness for the trimming/empty-output characterization at concrete
inputs: empty input yields `EmptyOutput`, and a fragment head is checked. -/
theorem trim_and_empty_output_witness :
    extract_cpp "".data = .error ExtractErr.EmptyOutput ∧ pyIsSpace 'x' = false :=
  ⟨(trim_and_empty_output "".data).1.mpr (by decide),
   (trim_and_empty_output "x".data).2.1 'x' (by decide)⟩

/-- C1: whenever the trimmed fragment has at least one entry-construct match
(and the namespace search succeeds, without which extraction fails first),
`extract_cpp` returns the identifier of the last struct match in textual
order, not the first. -/
theorem extract_last_struct (source ns m : Str) (ms : List Str)
    (hns : nsSearch (fragmentOf source) = some ns)
    (hst : structScan (fragmentOf source) = m :: ms) :
    extract_cpp source = .ok (fragmentOf source, ns, (m :: ms).getLastD []) := by
  have hne : fragmentOf source ≠ [] := by
    intro h0
    rw [h0] at hns
    simp [nsSearch] at hns
  simp only [extract_cpp, fragment_isEmpty_false hne, Bool.false_eq_true, if_false]
  rw [hns, hst]

/-- Witness for last-match selection: `struct A ...` before `struct B ...`
yields entry name `B`. -/
theorem extract_last_struct_witness :
    extract_cpp "namespace demo \x7b\nstruct A : jank::runtime::obj::jit_function \x7b\x7d;\nstruct B : jank::runtime::obj::jit_function \x7b\x7d;\n\x7d\nnil".data
      = .ok ("namespace demo \x7b\nstruct A : jank::runtime::obj::jit_function \x7b\x7d;\nstruct B : jank::runtime::obj::jit_function \x7b\x7d;\n\x7d".data,
             "demo".data, "B".data) := by
  have h := extract_last_struct
    "namespace demo \x7b\nstruct A : jank::runtime::obj::jit_function \x7b\x7d;\nstruct B : jank::runtime::obj::jit_function \x7b\x7d;\n\x7d\nnil".data
    "demo".data "A".data ["B".data] (by decide) (by decide)
  exact h

/-- C2: for raw text with a non-empty trimmed fragment, extraction fails with
`NamespaceNotFound` iff the fragment has no namespace match (and then `main`
writes no file); when a namespace is found, the returned namespace is the
first match, and extraction fails with `EntryConstructNotFound` iff the
fragment has no entry-construct match. -/
theorem namespace_and_entry_errors (source : Str) (hne : fragmentOf source ≠ []) :
    (extract_cpp source = .error ExtractErr.NamespaceNotFound ↔
        nsSearch (fragmentOf source) = none) ∧
    (∀ ns, nsSearch (fragmentOf source) = some ns →
        ((extract_cpp source = .error ExtractErr.EntryConstructNotFound ↔
            structScan (fragmentOf source) = []) ∧
          ∀ f n e, extract_cpp source = .ok (f, n, e) → n = ns)) ∧
    (extract_cpp source = .error ExtractErr.NamespaceNotFound →
        ∀ env : Env, pickInput env = source → writesOf (mainModel env) = []) := by
  have key : extract_cpp source =
      (match nsSearch (fragmentOf source) with
       | none => .error .NamespaceNotFound
       | some ns =>
         match structScan (fragmentOf source) with
         | [] => .error .EntryConstructNotFound
         | m :: ms => .ok (fragmentOf source, ns, (m :: ms).getLastD [])) := by
    simp only [extract_cpp, fragment_isEmpty_false hne, Bool.false_eq_true, if_false]
  refine ⟨⟨?_, ?_⟩, ?_, ?_⟩
  · intro h
    cases hns : nsSearch (fragmentOf source) with
    | none => rfl
    | some ns =>
      rw [key, hns] at h
      cases hst : structScan (fragmentOf source) with
      | nil => rw [hst] at h; simp at h
      | cons m ms => rw [hst] at h; simp at h
  · intro h
    rw [key, h]
  · intro ns hns
    constructor
    · constructor
      · intro h
        cases hst : structScan (fragmentOf source) with
        | nil => rfl
        | cons m ms => rw [key, hns, hst] at h; simp at h
      · intro h
        rw [key, hns, h]
    · intro f n e h
      rw [key, hns] at h
      cases hst : structScan (fragmentOf source) with
      | nil => rw [hst] at h; simp at h
      | cons m ms =>
        rw [hst] at h
        simp only [Except.ok.injEq, Prod.mk.injEq] at h
        exact h.2.1.symm
  · intro h env hpick
    cases hb : env.jankBinaryExists <;> cases hfi : env.jankFileExists <;>
      cases hpo : env.procExitOk <;>
        simp [mainModel, writesOf, hb, hfi, hpo, hpick, h]

/-- Witness for the error characterization: text with no namespace pattern
fails with `NamespaceNotFound`; a namespace without any jit_function struct
fails with `EntryConstructNotFound`. -/
theorem namespace_and_entry_errors_witness :
    extract_cpp "hello".data = .error ExtractErr.NamespaceNotFound ∧
    extract_cpp "namespace demo \x7b\n\x7d".data = .error ExtractErr.EntryConstructNotFound :=
  ⟨(namespace_and_entry_errors "hello".data (by decide)).1.mpr (by decide),
   ((namespace_and_entry_errors "namespace demo \x7b\n\x7d".data (by decide)).2.1
      "demo".data (by decide)).1.mpr (by decide)⟩

/-- `dropWhile` never lengthens a list. -/
theorem dropWhile_length_le (p : Char → Bool) (l : Str) :
    (l.dropWhile p).length ≤ l.length := by
  induction l with
  | nil => simp
  | cons a as ih =>
    rw [List.dropWhile_cons]
    split
    · exact Nat.le_succ_of_le ih
    · exact Nat.le_refl _

/-- `dropLit` shortens by exactly the literal's length. -/
theorem dropLit_length (p : Str) : ∀ s r, dropLit p s = some r → r.length + p.length = s.length := by
  induction p with
  | nil =>
    intro s r h
    simp only [dropLit, Option.some.injEq] at h
    subst h
    simp
  | cons a as ih =>
    intro s r h
    cases s with
    | nil => simp [dropLit] at h
    | cons c cs =>
      simp only [dropLit] at h
      split at h
      · have := ih cs r h
        simp only [List.length_cons]
        omega
      · simp at h

/-- A successful struct match leaves a strictly shorter remainder, so the
fuel `s.length` in `structScan` can never run out. -/
theorem matchStructAt_lt (s ident rest : Str) (h : matchStructAt s = some (ident, rest)) :
    rest.length < s.length := by
  simp only [matchStructAt] at h
  split at h
  · simp at h
  next r1 heq =>
    split at h
    · simp at h
    · split at h
      · simp at h
      · split at h
        next r5 heq3 =>
          split at h
          next heq2 => simp at h
          next r6 heq2 =>
            simp only [Option.some.injEq, Prod.mk.injEq] at h
            have e1 : r1.length + ("struct".data).length = s.length := dropLit_length _ _ _ heq
            have e2 : rest.length + ("jank::runtime::obj::jit_function".data).length
                = (r5.dropWhile pyIsSpace).length := by
              rw [← h.2]
              exact dropLit_length _ _ _ heq2
            have e3 : (r5.dropWhile pyIsSpace).length ≤ r5.length := dropWhile_length_le _ _
            have e4 : (':' :: r5).length ≤
                ((r1.dropWhile pyIsSpace).dropWhile pyIsWord).length := by
              rw [← heq3]
              exact dropWhile_length_le _ _
            have e5 : ((r1.dropWhile pyIsSpace).dropWhile pyIsWord).length ≤
                (r1.dropWhile pyIsSpace).length := dropWhile_length_le _ _
            have e6 : (r1.dropWhile pyIsSpace).length ≤ r1.length := dropWhile_length_le _ _
            simp only [List.length_cons] at e1 e4 ⊢
            omega
        · simp at h

/-- Fuel of at least the string's length is always enough for the scan:
`structScanAux` then agrees with `structScan`. -/
theorem structScanAux_stable (n : Nat) :
    ∀ s : Str, s.length ≤ n → structScanAux n s = structScan s := by
  induction n using Nat.strong_induction_on with
  | _ n ih =>
    intro s hs
    cases s with
    | nil => cases n <;> rfl
    | cons c cs =>
      cases n with
      | zero => simp at hs
      | succ n' =>
        have hcs : cs.length ≤ n' := by simpa using hs
        cases hm : matchStructAt (c :: cs) with
        | none =>
          have l1 : structScanAux (n' + 1) (c :: cs) = structScanAux n' cs := by
            simp [structScanAux, hm]
          have l2 : structScan (c :: cs) = structScanAux cs.length cs := by
            show structScanAux (c :: cs).length (c :: cs) = _
            simp [structScanAux, hm]
          rw [l1, l2, ih n' (Nat.lt_succ_self n') cs hcs]
          rfl
        | some pr =>
          obtain ⟨ident, rest⟩ := pr
          have hrest : rest.length < cs.length + 1 := by
            simpa using matchStructAt_lt _ _ _ hm
          have l1 : structScanAux (n' + 1) (c :: cs) = ident :: structScanAux n' rest := by
            simp [structScanAux, hm]
          have l2 : structScan (c :: cs) = ident :: structScanAux cs.length rest := by
            show structScanAux (c :: cs).length (c :: cs) = _
            simp [structScanAux, hm]
          rw [l1, l2, ih n' (Nat.lt_succ_self n') rest (by omega),
            ih cs.length (by omega) rest (by omega)]

/-- C7: assembly is deterministic and idempotent — the artifact text is a
function of the fragment, namespace, entry name and header reference alone,
so rendering twice from identical inputs gives byte-identical text. -/
theorem buildDriver_deterministic (h f ns en h' f' ns' en' : Str)
    (eh : h = h') (ef : f = f') (ens : ns = ns') (een : en = en') :
    buildDriver h f ns en = buildDriver h' f' ns' en' := by
  subst eh
  subst ef
  subst ens
  subst een
  rfl

/-- Witness for determinism at a concrete input. -/
theorem buildDriver_deterministic_witness :
    buildDriver "h.hpp".data "namespace a \x7b\n\x7d".data "a".data "b".data
      = buildDriver "h.hpp".data "namespace a \x7b\n\x7d".data "a".data "b".data :=
  buildDriver_deterministic _ _ _ _ _ _ _ _ rfl rfl rfl rfl

/-- C8: no partial output — when `main` fails at any stage nothing is
written (the model performs no filesystem action at all, a fortiori nothing
beyond directory creation), and on success the only write is the final
action and carries the fully rendered artifact. -/
theorem no_partial_output (env : Env) :
    (∀ e, mainModel env = .error e → writesOf (mainModel env) = []) ∧
    (∀ acts, mainModel env = .ok acts →
        ∃ f ns en, extract_cpp (pickInput env) = .ok (f, ns, en) ∧
          acts = [FsAction.mkdirParents,
                  FsAction.writeOutput (buildDriver env.headerInclude f ns en)]) := by
  constructor
  · intro e he
    rw [he]
    rfl
  · intro acts hacts
    simp only [mainModel] at hacts
    split at hacts
    · simp at hacts
    · split at hacts
      · simp at hacts
      · split at hacts
        · simp at hacts
        · split at hacts
          next e hx => simp at hacts
          next f ns en hx =>
            simp only [Except.ok.injEq] at hacts
            exact ⟨f, ns, en, hx, hacts.symm⟩

/-- Witness for the success half of the no-partial-output theorem. -/
theorem no_partial_output_witness :
    ∃ f ns en,
      extract_cpp (pickInput ⟨true, true, true,
          "namespace a \x7b\nstruct b : jank::runtime::obj::jit_function \x7b\x7d;\n\x7d".data,
          [], "h.hpp".data⟩) = .ok (f, ns, en) ∧
      [FsAction.mkdirParents,
       FsAction.writeOutput (buildDriver "h.hpp".data
         "namespace a \x7b\nstruct b : jank::runtime::obj::jit_function \x7b\x7d;\n\x7d".data
         "a".data "b".data)]
        = [FsAction.mkdirParents, FsAction.writeOutput (buildDriver "h.hpp".data f ns en)] :=
  (no_partial_output _).2 _ (by decide)

/-- C9: the end-to-end demo scenario — extraction yields namespace `demo_42`
and entry `entry_fn`, the fragment drops the `Hello from WASM!` line, and
the assembled artifact has a line whose stripped content is exactly
`using jank_entry_t = ::demo_42::entry_fn;`. -/
theorem end_to_end_demo :
    extract_cpp "namespace demo_42 \x7b\nstruct entry_fn : jank::runtime::obj::jit_function \x7b\n  void call() \x7b\x7d\n\x7d;\n\x7d\nHello from WASM!\n".data
      = .ok ("namespace demo_42 \x7b\nstruct entry_fn : jank::runtime::obj::jit_function \x7b\n  void call() \x7b\x7d\n\x7d;\n\x7d".data,
             "demo_42".data, "entry_fn".data) ∧
    hasOccur "Hello".data
      (fragmentOf "namespace demo_42 \x7b\nstruct entry_fn : jank::runtime::obj::jit_function \x7b\n  void call() \x7b\x7d\n\x7d;\n\x7d\nHello from WASM!\n".data) = false ∧
    (splitOnNl (buildDriver "../minimal_jank_runtime.hpp".data
        "namespace demo_42 \x7b\nstruct entry_fn : jank::runtime::obj::jit_function \x7b\n  void call() \x7b\x7d\n\x7d;\n\x7d".data
        "demo_42".data "entry_fn".data)).any
      (fun l => pyStrip l == "using jank_entry_t = ::demo_42::entry_fn;".data) = true :=
  ⟨by decide, by decide, by decide⟩

/-- Joining the split lines reproduces the string. -/
theorem joinNl_splitOnNl (s : Str) : joinNl (splitOnNl s) = s := by
  induction s with
  | nil => rfl
  | cons c cs ih =>
    by_cases h : c = '\n'
    · subst h
      rw [show splitOnNl ('\n' :: cs) = [] :: splitOnNl cs from by simp [splitOnNl]]
      cases hs : splitOnNl cs with
      | nil => exact absurd hs (splitOnNl_ne_nil cs)
      | cons l ls =>
        rw [hs] at ih
        show ([] : Str) ++ '\n' :: joinNl (l :: ls) = '\n' :: cs
        rw [List.nil_append, ih]
    · cases hs : splitOnNl cs with
      | nil => exact absurd hs (splitOnNl_ne_nil cs)
      | cons l ls =>
        rw [show splitOnNl (c :: cs) = (c :: l) :: ls from by simp [splitOnNl, h, hs]]
        rw [hs] at ih
        cases ls with
        | nil =>
          show c :: l = c :: cs
          rw [show joinNl [l] = l from rfl] at ih
          rw [ih]
        | cons l2 ls2 =>
          show (c :: l) ++ '\n' :: joinNl (l2 :: ls2) = c :: cs
          rw [List.cons_append]
          show c :: (l ++ '\n' :: joinNl (l2 :: ls2)) = c :: cs
          rw [show l ++ '\n' :: joinNl (l2 :: ls2) = joinNl (l :: l2 :: ls2) from rfl, ih]

/-- A newline-free string splits into a single line. -/
theorem splitOnNl_single (l : Str) (h : '\n' ∉ l) : splitOnNl l = [l] := by
  induction l with
  | nil => rfl
  | cons a as ih =>
    have ha : a ≠ '\n' := fun he => h (he ▸ List.mem_cons_self a as)
    have h' : '\n' ∉ as := fun hm => h (List.mem_cons_of_mem _ hm)
    simp [splitOnNl, ha, ih h']

/-- Splitting distributes through an explicit newline after a
newline-free line. -/
theorem splitOnNl_append (l : Str) (h : '\n' ∉ l) (rest : Str) :
    splitOnNl (l ++ '\n' :: rest) = l :: splitOnNl rest := by
  induction l with
  | nil => simp [splitOnNl]
  | cons a as ih =>
    have ha : a ≠ '\n' := fun he => h (he ▸ List.mem_cons_self a as)
    have h' : '\n' ∉ as := fun hm => h (List.mem_cons_of_mem _ hm)
    rw [List.cons_append]
    simp only [splitOnNl, ha, if_false, ih h']

/-- The lines of a split contain no newline. -/
theorem splitOnNl_no_nl (s : Str) : ∀ l ∈ splitOnNl s, '\n' ∉ l := by
  induction s with
  | nil =>
    intro l hl
    rw [show splitOnNl ([] : Str) = [[]] from rfl] at hl
    simp at hl
    simp [hl]
  | cons c cs ih =>
    intro l hl
    by_cases h : c = '\n'
    · subst h
      rw [show splitOnNl ('\n' :: cs) = [] :: splitOnNl cs from by simp [splitOnNl]] at hl
      rcases List.mem_cons.mp hl with he | he
      · simp [he]
      · exact ih l he
    · cases hs : splitOnNl cs with
      | nil => exact absurd hs (splitOnNl_ne_nil cs)
      | cons m ms =>
        rw [show splitOnNl (c :: cs) = (c :: m) :: ms from by simp [splitOnNl, h, hs]] at hl
        rcases List.mem_cons.mp hl with he | he
        · subst he
          intro hmem
          rcases List.mem_cons.mp hmem with h1 | h1
          · exact h h1.symm
          · exact ih m (by rw [hs]; exact List.mem_cons_self _ _) h1
        · exact ih l (by rw [hs]; exact List.mem_cons_of_mem _ he)

/-- `joinNl` over an append of non-empty groups inserts one newline. -/
theorem joinNl_append (A B : List Str) (hA : A ≠ []) (hB : B ≠ []) :
    joinNl (A ++ B) = joinNl A ++ '\n' :: joinNl B := by
  induction A with
  | nil => exact absurd rfl hA
  | cons a as ih =>
    cases as with
    | nil =>
      cases B with
      | nil => exact absurd rfl hB
      | cons b bs => rfl
    | cons a2 as2 =>
      have ih2 := ih (List.cons_ne_nil a2 as2)
      show a ++ '\n' :: joinNl ((a2 :: as2) ++ B)
          = (a ++ '\n' :: joinNl (a2 :: as2)) ++ '\n' :: joinNl B
      rw [ih2]
      simp [List.append_assoc]

/-- Splitting inverts joining for newline-free line lists. -/
theorem splitOnNl_joinNl (L : List Str) (hL : L ≠ []) (h : ∀ l ∈ L, '\n' ∉ l) :
    splitOnNl (joinNl L) = L := by
  induction L with
  | nil => exact absurd rfl hL
  | cons l ls ih =>
    cases ls with
    | nil =>
      show splitOnNl l = [l]
      exact splitOnNl_single l (h l (List.mem_cons_self _ _))
    | cons l2 ls2 =>
      show splitOnNl (l ++ '\n' :: joinNl (l2 :: ls2)) = l :: l2 :: ls2
      rw [splitOnNl_append l (h l (List.mem_cons_self _ _)),
        ih (List.cons_ne_nil _ _) (fun m hm => h m (List.mem_cons_of_mem _ hm))]

/-- Pulling a prefix into the head line of a join. -/
theorem append_joinNl_cons (x y : Str) (ys : List Str) :
    x ++ joinNl (y :: ys) = joinNl ((x ++ y) :: ys) := by
  cases ys with
  | nil => rfl
  | cons y2 ys2 =>
    show x ++ (y ++ '\n' :: joinNl (y2 :: ys2)) = (x ++ y) ++ '\n' :: joinNl (y2 :: ys2)
    rw [List.append_assoc]

/-- A joined group can be flattened inside a join. -/
theorem joinNl_flatten (A C B : List Str) (hA : A ≠ []) (hC : C ≠ []) (hB : B ≠ []) :
    joinNl (A ++ [joinNl C] ++ B) = joinNl (A ++ (C ++ B)) := by
  rw [List.append_assoc, joinNl_append A ([joinNl C] ++ B) hA (by simp),
    joinNl_append [joinNl C] B (by simp) hB,
    joinNl_append A (C ++ B) hA (by simp [hC]),
    joinNl_append C B hC hB]
  rfl

/-- `dropWhile` skips a block of satisfying elements. -/
theorem dropWhile_append_all (p : Char → Bool) (a b : Str) (h : ∀ x ∈ a, p x = true) :
    (a ++ b).dropWhile p = b.dropWhile p := by
  induction a with
  | nil => rfl
  | cons x xs ih =>
    rw [List.cons_append, List.dropWhile_cons, if_pos (h x (List.mem_cons_self _ _))]
    exact ih (fun y hy => h y (List.mem_cons_of_mem _ hy))

/-- `strip` of a trimmed body padded with whitespace on both sides is the
body itself. -/
theorem pyStrip_eq_of (w1 s w2 : Str) (hs : s ≠ [])
    (hw1 : ∀ x ∈ w1, pyIsSpace x = true) (hw2 : ∀ x ∈ w2, pyIsSpace x = true)
    (hhead : ∀ c, s.head? = some c → pyIsSpace c = false)
    (hlast : ∀ c, s.getLast? = some c → pyIsSpace c = false) :
    pyStrip (w1 ++ s ++ w2) = s := by
  rcases List.eq_nil_or_concat' s with rfl | ⟨s', d, rfl⟩
  · exact absurd rfl hs
  have hd : pyIsSpace d = false := hlast d (by rw [List.getLast?_concat])
  obtain ⟨c, t, hct, hc⟩ : ∃ c t, s' ++ [d] = c :: t ∧ pyIsSpace c = false := by
    cases s' with
    | nil => exact ⟨d, [], rfl, hd⟩
    | cons a as => exact ⟨a, as ++ [d], rfl, hhead a rfl⟩
  unfold pyStrip
  rw [List.append_assoc, dropWhile_append_all _ _ _ hw1, hct, List.cons_append,
    List.dropWhile_cons, if_neg (by simp [hc]), ← List.cons_append, ← hct,
    List.reverse_append, List.reverse_append,
    dropWhile_append_all _ _ _ (fun x hx => hw2 x (List.mem_reverse.mp hx))]
  rw [show ([d] : Str).reverse = [d] from rfl, List.singleton_append,
    List.dropWhile_cons, if_neg (by simp [hd])]
  rw [show (d :: s'.reverse).reverse = s'.reverse.reverse ++ [d] from List.reverse_cons d _,
    List.reverse_reverse]

/-- A line containing a character that is not space or tab is not
whitespace-only. -/
theorem wsOnly_false (l : Str) (c : Char) (hc : c ∈ l) (h : isSpTab c = false) :
    wsOnly l = false := by
  unfold wsOnly
  have hall : l.all isSpTab = false := List.all_eq_false.mpr ⟨c, hc, by simp [h]⟩
  simp [hall]

/-- Blanking is the identity on lists of non-whitespace-only lines. -/
theorem blankWsOnly_id (L : List Str) (h : ∀ l ∈ L, wsOnly l = false) :
    blankWsOnly L = L := by
  induction L with
  | nil => rfl
  | cons a as ih =>
    show (if wsOnly a then [] else a) :: blankWsOnly as = a :: as
    rw [h a (List.mem_cons_self _ _), if_neg (by simp), ih fun l hl => h l (List.mem_cons_of_mem _ hl)]

/-- Newlines do not enter an append from newline-free parts. -/
theorem noNl_append (a b : Str) (ha : '\n' ∉ a) (hb : '\n' ∉ b) : '\n' ∉ a ++ b := by
  intro hc
  rcases List.mem_append.mp hc with h | h
  · exact ha h
  · exact hb h

/-- A true `strStarts` needs at least the pattern's length. -/
theorem strStarts_length_le (p : Str) : ∀ s, strStarts p s = true → p.length ≤ s.length := by
  induction p with
  | nil => intro s _; simp
  | cons q qs ih =>
    intro s h
    cases s with
    | nil => simp [strStarts] at h
    | cons c cs =>
      simp only [strStarts, Bool.and_eq_true] at h
      simpa using Nat.succ_le_succ (ih cs h.2)

/-- A match within the first block ignores what follows it. -/
theorem strStarts_append_left (p : Str) : ∀ a b : Str, p.length ≤ a.length →
    strStarts p (a ++ b) = strStarts p a := by
  induction p with
  | nil => intro a b _; rfl
  | cons q qs ih =>
    intro a b hl
    cases a with
    | nil => simp at hl
    | cons x xs =>
      rw [List.cons_append]
      show (decide (q = x) && strStarts qs (xs ++ b)) = (decide (q = x) && strStarts qs xs)
      rw [ih xs b (by simpa using hl)]

/-- A match that overruns the first block contains its boundary element. -/
theorem mem_of_strStarts_long (p : Str) : ∀ (a b : Str) (c : Char),
    strStarts p (a ++ c :: b) = true → a.length < p.length → c ∈ p := by
  induction p with
  | nil => intro a b c _ hl; simp at hl
  | cons q qs ih =>
    intro a b c h hl
    cases a with
    | nil =>
      simp only [List.nil_append, strStarts, Bool.and_eq_true, decide_eq_true_eq] at h
      exact h.1 ▸ List.mem_cons_self _ _
    | cons x xs =>
      rw [List.cons_append] at h
      simp only [strStarts, Bool.and_eq_true] at h
      exact List.mem_cons_of_mem _ (ih xs b c h.2 (by simpa using hl))

/-- An element absent from the pattern acts as an occurrence barrier:
occurrences split cleanly across it. -/
theorem countOccur_barrier (p : Str) (hp : p ≠ []) (c : Char) (hc : c ∉ p) :
    ∀ a b : Str, countOccur p (a ++ c :: b) = countOccur p a + countOccur p b := by
  intro a
  induction a with
  | nil =>
    intro b
    have hs : strStarts p (c :: b) = false := by
      cases p with
      | nil => exact absurd rfl hp
      | cons q qs =>
        by_cases hq : q = c
        · exact absurd (hq ▸ List.mem_cons_self _ _) hc
        · show (decide (q = c) && _) = false
          simp [hq]
    rw [List.nil_append]
    show (if strStarts p (c :: b) = true then 1 else 0) + countOccur p b
        = countOccur p [] + countOccur p b
    rw [hs]
    simp [countOccur]
  | cons x xs ih =>
    intro b
    rw [List.cons_append]
    show (if strStarts p (x :: (xs ++ c :: b)) = true then 1 else 0) + countOccur p (xs ++ c :: b)
        = ((if strStarts p (x :: xs) = true then 1 else 0) + countOccur p xs) + countOccur p b
    rw [ih b]
    have hifs : strStarts p (x :: (xs ++ c :: b)) = strStarts p (x :: xs) := by
      by_cases hl : p.length ≤ (x :: xs).length
      · rw [show (x :: (xs ++ c :: b)) = (x :: xs) ++ c :: b from rfl,
          strStarts_append_left p _ _ hl]
      · push_neg at hl
        have h1 : strStarts p ((x :: xs) ++ c :: b) = false := by
          cases hS : strStarts p ((x :: xs) ++ c :: b)
          · rfl
          · exact absurd (mem_of_strStarts_long p _ _ c hS hl) hc
        have h2 : strStarts p (x :: xs) = false := by
          cases hS : strStarts p (x :: xs)
          · rfl
          · have := strStarts_length_le p _ hS
            omega
        rw [show (x :: (xs ++ c :: b)) = (x :: xs) ++ c :: b from rfl, h1, h2]
    rw [hifs]
    omega

/-- A head element differing from the pattern's head contributes nothing. -/
theorem countOccur_ne_head (q : Char) (ps : Str) (d : Char) (s : Str) (h : q ≠ d) :
    countOccur (q :: ps) (d :: s) = countOccur (q :: ps) s := by
  show (if strStarts (q :: ps) (d :: s) = true then 1 else 0) + countOccur (q :: ps) s
      = countOccur (q :: ps) s
  have : strStarts (q :: ps) (d :: s) = false := by
    show (decide (q = d) && _) = false
    simp [h]
  rw [this]
  simp

/-- Eight leading spaces never start an `int main()` occurrence. -/
theorem countOccur_spaces8 (p : Str) (q : Char) (ps : Str) (hp : p = q :: ps) (h : q ≠ ' ')
    (s : Str) : countOccur p ("        ".data ++ s) = countOccur p s := by
  subst hp
  show countOccur (q :: ps) (' ' :: ' ' :: ' ' :: ' ' :: ' ' :: ' ' :: ' ' :: ' ' :: s)
      = countOccur (q :: ps) s
  rw [countOccur_ne_head _ _ _ _ h, countOccur_ne_head _ _ _ _ h, countOccur_ne_head _ _ _ _ h,
    countOccur_ne_head _ _ _ _ h, countOccur_ne_head _ _ _ _ h, countOccur_ne_head _ _ _ _ h,
    countOccur_ne_head _ _ _ _ h, countOccur_ne_head _ _ _ _ h]

/-- Splitting a join whose middle line carries an embedded multi-line
string: the embedded string's lines surface in the split. -/
theorem splitOnNl_joinNl_mid (T1 T2 : List Str) (x f f0 : Str) (frest : List Str)
    (hT1 : T1 ≠ []) (hT2 : T2 ≠ [])
    (h1 : ∀ l ∈ T1, '\n' ∉ l) (h2 : ∀ l ∈ T2, '\n' ∉ l)
    (hx : '\n' ∉ x)
    (hsplit : splitOnNl f = f0 :: frest) :
    splitOnNl (joinNl (T1 ++ [x ++ f] ++ T2)) = T1 ++ ((x ++ f0) :: frest) ++ T2 := by
  have hfj : joinNl (f0 :: frest) = f := by rw [← hsplit, joinNl_splitOnNl]
  have e1 : x ++ f = joinNl ((x ++ f0) :: frest) := by
    rw [← hfj, append_joinNl_cons]
  rw [e1, joinNl_flatten T1 _ T2 hT1 (List.cons_ne_nil _ _) hT2]
  have hne : T1 ++ (((x ++ f0) :: frest) ++ T2) ≠ [] := by
    intro habs
    rcases List.append_eq_nil.mp habs with ⟨hT1nil, _⟩
    exact hT1 hT1nil
  have hnl : ∀ l ∈ T1 ++ (((x ++ f0) :: frest) ++ T2), '\n' ∉ l := by
    intro l hl
    rcases List.mem_append.mp hl with hA | hM
    · exact h1 l hA
    rcases List.mem_append.mp hM with hB | hC
    · rcases List.mem_cons.mp hB with hx0 | hfr
      · subst hx0
        exact noNl_append _ _ hx (splitOnNl_no_nl f f0 (hsplit ▸ List.mem_cons_self _ _))
      · exact splitOnNl_no_nl f l (hsplit ▸ List.mem_cons_of_mem _ hfr)
    · exact h2 l hC
  rw [splitOnNl_joinNl _ hne hnl, ← List.append_assoc]

/-- C6 as stated is false on the code: `dedent` runs after the fragment is
substituted, so a fragment whose continuation lines are all indented is not
contained verbatim in the artifact; and a fragment containing `int main()`
gives the artifact two process entry points. -/
theorem artifact_shape_counterexample :
    hasOccur "namespace a \x7b\n int x;\n \x7d".data
      (buildDriver "h.hpp".data "namespace a \x7b\n int x;\n \x7d".data "a".data "b".data)
      = false ∧
    countOccur "int main()".data
      (buildDriver "h.hpp".data "namespace a \x7b\nint main() \x7b\x7d\n\x7d".data
        "a".data "b".data) = 2 :=
  ⟨by decide, by decide⟩

/-- Space-or-tab characters are whitespace, contrapositively. -/
theorem isSpTab_false_of (c : Char) (h : pyIsSpace c = false) : isSpTab c = false := by
  cases hst : isSpTab c
  · rfl
  · have : pyIsSpace c = true := by
      rcases (by simpa [isSpTab] using hst : c = ' ' ∨ c = '\t') with rfl | rfl <;> rfl
    rw [this] at h
    cases h


/-- `blankWsOnly` distributes over append. -/
theorem blankWsOnly_append (X Y : List Str) :
    blankWsOnly (X ++ Y) = blankWsOnly X ++ blankWsOnly Y := List.map_append _ _ _

/-- The head of `int main()` never matches a leading colon. -/
theorem countOccur_im_colon (Z : Str) :
    countOccur "int main()".data (':' :: Z) = countOccur "int main()".data Z := by
  show countOccur ('i' :: "nt main()".data) (':' :: Z)
      = countOccur ('i' :: "nt main()".data) Z
  exact countOccur_ne_head _ _ _ _ (by decide)

/-- The artifact equality behind the amended shape claim: under the stated
side conditions the driver text is exactly the include line, the fixed
preamble, the fragment verbatim, the alias line with the two identifiers,
and the fixed postamble with one trailing newline. -/
theorem driver_eq (h f ns en : Str)
    (hh : '\n' ∉ h) (hns : '\n' ∉ ns) (hen : '\n' ∉ en)
    (hf : f ≠ []) (hfh : pyIsSpace (f.headD ' ') = false)
    (hflines : ∀ l ∈ splitOnNl f, wsOnly l = false)
    (hm : dedentMargin (renderTemplate h f ns en) = []) :
    buildDriver h f ns en =
      "#include \"".data ++ h ++
      "\"\n        #ifdef __EMSCRIPTEN__\n        #  include <emscripten/emscripten.h>\n        #endif\n\n        ".data ++
      f ++ "\n\n        namespace \x7b\n          using jank_entry_t = ::".data ++
      ns ++ "::".data ++ en ++
      ";\n        \x7d\n\n        extern \"C\" \x7b\n\n        #ifdef __EMSCRIPTEN__\n        EMSCRIPTEN_KEEPALIVE\n        #endif\n        void jank_run_main() \x7b\n          auto fn = jank::runtime::make_box<jank_entry_t>();\n          fn->call();\n        \x7d\n\n        int main() \x7b\n          jank_run_main();\n          return 0;\n        \x7d\n\n        \x7d".data ++ [ '\n' ] := by
  obtain ⟨ch, ftail, rfl⟩ : ∃ ch ftail, f = ch :: ftail := by
    cases f with
    | nil => exact absurd rfl hf
    | cons a b => exact ⟨a, b, rfl⟩
  have hch : pyIsSpace ch = false := by simpa using hfh
  have hchn : ch ≠ '\n' := by
    intro he
    rw [he] at hch
    exact absurd hch (by decide)
  obtain ⟨l0, ls0, hs2⟩ : ∃ l0 ls0, splitOnNl ftail = l0 :: ls0 := by
    cases hs : splitOnNl ftail with
    | nil => exact absurd hs (splitOnNl_ne_nil ftail)
    | cons a b => exact ⟨a, b, rfl⟩
  have hsplitF : splitOnNl (ch :: ftail) = (ch :: l0) :: ls0 := by
    simp [splitOnNl, hchn, hs2]
  have hst : isSpTab ch = false := isSpTab_false_of ch hch
  have hT1nl : ∀ l ∈ ([[],
        "        #include \"".data ++ h ++ "\"".data,
        "        #ifdef __EMSCRIPTEN__".data,
        "        #  include <emscripten/emscripten.h>".data,
        "        #endif".data,
        []] : List Str), '\n' ∉ l := by
    intro l hl
    simp only [List.mem_cons, List.not_mem_nil, or_false] at hl
    rcases hl with rfl | rfl | rfl | rfl | rfl | rfl <;>
      first
        | decide
        | exact noNl_append _ _ (noNl_append _ _ (by decide) hh) (by decide)
  have hT2nl : ∀ l ∈ ([[],
        "        namespace \x7b".data,
        "          using jank_entry_t = ::".data ++ ns ++ "::".data ++ en ++ ";".data,
        "        \x7d".data,
        [],
        "        extern \"C\" \x7b".data,
        [],
        "        #ifdef __EMSCRIPTEN__".data,
        "        EMSCRIPTEN_KEEPALIVE".data,
        "        #endif".data,
        "        void jank_run_main() \x7b".data,
        "          auto fn = jank::runtime::make_box<jank_entry_t>();".data,
        "          fn->call();".data,
        "        \x7d".data,
        [],
        "        int main() \x7b".data,
        "          jank_run_main();".data,
        "          return 0;".data,
        "        \x7d".data,
        [],
        "        \x7d".data,
        "        ".data] : List Str), '\n' ∉ l := by
    intro l hl
    simp only [List.mem_cons, List.not_mem_nil, or_false] at hl
    rcases hl with rfl | rfl | rfl | rfl | rfl | rfl | rfl | rfl | rfl | rfl | rfl | rfl | rfl | rfl | rfl | rfl | rfl | rfl | rfl | rfl | rfl | rfl <;>
      first
        | decide
        | exact noNl_append _ _ (noNl_append _ _ (noNl_append _ _ (noNl_append _ _ (by decide) hns) (by decide)) hen) (by decide)
  have hren : splitOnNl (renderTemplate h (ch :: ftail) ns en)
      = [[],
        "        #include \"".data ++ h ++ "\"".data,
        "        #ifdef __EMSCRIPTEN__".data,
        "        #  include <emscripten/emscripten.h>".data,
        "        #endif".data,
        []]
        ++ (("        ".data ++ (ch :: l0)) :: ls0)
        ++ [[],
        "        namespace \x7b".data,
        "          using jank_entry_t = ::".data ++ ns ++ "::".data ++ en ++ ";".data,
        "        \x7d".data,
        [],
        "        extern \"C\" \x7b".data,
        [],
        "        #ifdef __EMSCRIPTEN__".data,
        "        EMSCRIPTEN_KEEPALIVE".data,
        "        #endif".data,
        "        void jank_run_main() \x7b".data,
        "          auto fn = jank::runtime::make_box<jank_entry_t>();".data,
        "          fn->call();".data,
        "        \x7d".data,
        [],
        "        int main() \x7b".data,
        "          jank_run_main();".data,
        "          return 0;".data,
        "        \x7d".data,
        [],
        "        \x7d".data,
        "        ".data] := by
    exact splitOnNl_joinNl_mid _ _ "        ".data (ch :: ftail) (ch :: l0) ls0
      (List.cons_ne_nil _ _) (List.cons_ne_nil _ _) hT1nl hT2nl (by decide) hsplitF
  have hnsline : wsOnly ("          using jank_entry_t = ::".data ++ ns ++ "::".data ++ en ++ ";".data) = false :=
    wsOnly_false _ 'u' (List.mem_append_left _ (List.mem_append_left _
      (List.mem_append_left _ (List.mem_append_left _ (by decide))))) (by decide)
  have hincline : wsOnly ("        #include \"".data ++ h ++ "\"".data) = false :=
    wsOnly_false _ '#' (List.mem_append_left _ (List.mem_append_left _ (by decide))) (by decide)
  have hfr0 : wsOnly ("        ".data ++ (ch :: l0)) = false :=
    wsOnly_false _ ch (List.mem_append_right _ (List.mem_cons_self _ _)) hst
  have hT1ws : ∀ l ∈ ([[],
        "        #include \"".data ++ h ++ "\"".data,
        "        #ifdef __EMSCRIPTEN__".data,
        "        #  include <emscripten/emscripten.h>".data,
        "        #endif".data,
        []] : List Str), wsOnly l = false := by
    intro l hl
    simp only [List.mem_cons, List.not_mem_nil, or_false] at hl
    rcases hl with rfl | rfl | rfl | rfl | rfl | rfl <;>
      first
        | decide
        | exact hincline
  have hFRws : ∀ l ∈ (("        ".data ++ (ch :: l0)) :: ls0), wsOnly l = false := by
    intro l hl
    rcases List.mem_cons.mp hl with rfl | hmem
    · exact hfr0
    · exact hflines l (by rw [hsplitF]; exact List.mem_cons_of_mem _ hmem)
  have hT2prews : ∀ l ∈ ([[],
        "        namespace \x7b".data,
        "          using jank_entry_t = ::".data ++ ns ++ "::".data ++ en ++ ";".data,
        "        \x7d".data,
        [],
        "        extern \"C\" \x7b".data,
        [],
        "        #ifdef __EMSCRIPTEN__".data,
        "        EMSCRIPTEN_KEEPALIVE".data,
        "        #endif".data,
        "        void jank_run_main() \x7b".data,
        "          auto fn = jank::runtime::make_box<jank_entry_t>();".data,
        "          fn->call();".data,
        "        \x7d".data,
        [],
        "        int main() \x7b".data,
        "          jank_run_main();".data,
        "          return 0;".data,
        "        \x7d".data,
        [],
        "        \x7d".data] : List Str), wsOnly l = false := by
    intro l hl
    simp only [List.mem_cons, List.not_mem_nil, or_false] at hl
    rcases hl with rfl | rfl | rfl | rfl | rfl | rfl | rfl | rfl | rfl | rfl | rfl | rfl | rfl | rfl | rfl | rfl | rfl | rfl | rfl | rfl | rfl <;>
      first
        | decide
        | exact hnsline
  have hT2blank : blankWsOnly ([[],
        "        namespace \x7b".data,
        "          using jank_entry_t = ::".data ++ ns ++ "::".data ++ en ++ ";".data,
        "        \x7d".data,
        [],
        "        extern \"C\" \x7b".data,
        [],
        "        #ifdef __EMSCRIPTEN__".data,
        "        EMSCRIPTEN_KEEPALIVE".data,
        "        #endif".data,
        "        void jank_run_main() \x7b".data,
        "          auto fn = jank::runtime::make_box<jank_entry_t>();".data,
        "          fn->call();".data,
        "        \x7d".data,
        [],
        "        int main() \x7b".data,
        "          jank_run_main();".data,
        "          return 0;".data,
        "        \x7d".data,
        [],
        "        \x7d".data,
        "        ".data] : List Str)
      = ([[],
        "        namespace \x7b".data,
        "          using jank_entry_t = ::".data ++ ns ++ "::".data ++ en ++ ";".data,
        "        \x7d".data,
        [],
        "        extern \"C\" \x7b".data,
        [],
        "        #ifdef __EMSCRIPTEN__".data,
        "        EMSCRIPTEN_KEEPALIVE".data,
        "        #endif".data,
        "        void jank_run_main() \x7b".data,
        "          auto fn = jank::runtime::make_box<jank_entry_t>();".data,
        "          fn->call();".data,
        "        \x7d".data,
        [],
        "        int main() \x7b".data,
        "          jank_run_main();".data,
        "          return 0;".data,
        "        \x7d".data,
        [],
        "        \x7d".data] : List Str) ++ [[]] := by
    rw [show ([[],
        "        namespace \x7b".data,
        "          using jank_entry_t = ::".data ++ ns ++ "::".data ++ en ++ ";".data,
        "        \x7d".data,
        [],
        "        extern \"C\" \x7b".data,
        [],
        "        #ifdef __EMSCRIPTEN__".data,
        "        EMSCRIPTEN_KEEPALIVE".data,
        "        #endif".data,
        "        void jank_run_main() \x7b".data,
        "          auto fn = jank::runtime::make_box<jank_entry_t>();".data,
        "          fn->call();".data,
        "        \x7d".data,
        [],
        "        int main() \x7b".data,
        "          jank_run_main();".data,
        "          return 0;".data,
        "        \x7d".data,
        [],
        "        \x7d".data,
        "        ".data] : List Str)
        = ([[],
        "        namespace \x7b".data,
        "          using jank_entry_t = ::".data ++ ns ++ "::".data ++ en ++ ";".data,
        "        \x7d".data,
        [],
        "        extern \"C\" \x7b".data,
        [],
        "        #ifdef __EMSCRIPTEN__".data,
        "        EMSCRIPTEN_KEEPALIVE".data,
        "        #endif".data,
        "        void jank_run_main() \x7b".data,
        "          auto fn = jank::runtime::make_box<jank_entry_t>();".data,
        "          fn->call();".data,
        "        \x7d".data,
        [],
        "        int main() \x7b".data,
        "          jank_run_main();".data,
        "          return 0;".data,
        "        \x7d".data,
        [],
        "        \x7d".data] : List Str) ++ ["        ".data] from rfl,
      blankWsOnly_append, blankWsOnly_id _ hT2prews,
      show blankWsOnly ["        ".data] = [[]] from by decide]
  have hblank : blankWsOnly
      ([[],
        "        #include \"".data ++ h ++ "\"".data,
        "        #ifdef __EMSCRIPTEN__".data,
        "        #  include <emscripten/emscripten.h>".data,
        "        #endif".data,
        []]
        ++ (("        ".data ++ (ch :: l0)) :: ls0)
        ++ [[],
        "        namespace \x7b".data,
        "          using jank_entry_t = ::".data ++ ns ++ "::".data ++ en ++ ";".data,
        "        \x7d".data,
        [],
        "        extern \"C\" \x7b".data,
        [],
        "        #ifdef __EMSCRIPTEN__".data,
        "        EMSCRIPTEN_KEEPALIVE".data,
        "        #endif".data,
        "        void jank_run_main() \x7b".data,
        "          auto fn = jank::runtime::make_box<jank_entry_t>();".data,
        "          fn->call();".data,
        "        \x7d".data,
        [],
        "        int main() \x7b".data,
        "          jank_run_main();".data,
        "          return 0;".data,
        "        \x7d".data,
        [],
        "        \x7d".data,
        "        ".data])
      = [[],
        "        #include \"".data ++ h ++ "\"".data,
        "        #ifdef __EMSCRIPTEN__".data,
        "        #  include <emscripten/emscripten.h>".data,
        "        #endif".data,
        []]
        ++ (("        ".data ++ (ch :: l0)) :: ls0)
        ++ ([[],
        "        namespace \x7b".data,
        "          using jank_entry_t = ::".data ++ ns ++ "::".data ++ en ++ ";".data,
        "        \x7d".data,
        [],
        "        extern \"C\" \x7b".data,
        [],
        "        #ifdef __EMSCRIPTEN__".data,
        "        EMSCRIPTEN_KEEPALIVE".data,
        "        #endif".data,
        "        void jank_run_main() \x7b".data,
        "          auto fn = jank::runtime::make_box<jank_entry_t>();".data,
        "          fn->call();".data,
        "        \x7d".data,
        [],
        "        int main() \x7b".data,
        "          jank_run_main();".data,
        "          return 0;".data,
        "        \x7d".data,
        [],
        "        \x7d".data]
        ++ [[]]) := by
    rw [blankWsOnly_append, blankWsOnly_append, blankWsOnly_id _ hT1ws,
      blankWsOnly_id _ hFRws, hT2blank]
  have hm2 : marginOf ([[],
        "        #include \"".data ++ h ++ "\"".data,
        "        #ifdef __EMSCRIPTEN__".data,
        "        #  include <emscripten/emscripten.h>".data,
        "        #endif".data,
        []]
        ++ (("        ".data ++ (ch :: l0)) :: ls0)
        ++ ([[],
        "        namespace \x7b".data,
        "          using jank_entry_t = ::".data ++ ns ++ "::".data ++ en ++ ";".data,
        "        \x7d".data,
        [],
        "        extern \"C\" \x7b".data,
        [],
        "        #ifdef __EMSCRIPTEN__".data,
        "        EMSCRIPTEN_KEEPALIVE".data,
        "        #endif".data,
        "        void jank_run_main() \x7b".data,
        "          auto fn = jank::runtime::make_box<jank_entry_t>();".data,
        "          fn->call();".data,
        "        \x7d".data,
        [],
        "        int main() \x7b".data,
        "          jank_run_main();".data,
        "          return 0;".data,
        "        \x7d".data,
        [],
        "        \x7d".data]
        ++ [[]])) = [] := by
    have h0 := hm
    unfold dedentMargin at h0
    rw [hren, hblank] at h0
    exact h0
  have hded : dedent (renderTemplate h (ch :: ftail) ns en)
      = joinNl ([[],
        "        #include \"".data ++ h ++ "\"".data,
        "        #ifdef __EMSCRIPTEN__".data,
        "        #  include <emscripten/emscripten.h>".data,
        "        #endif".data,
        []]
        ++ (("        ".data ++ (ch :: l0)) :: ls0)
        ++ ([[],
        "        namespace \x7b".data,
        "          using jank_entry_t = ::".data ++ ns ++ "::".data ++ en ++ ";".data,
        "        \x7d".data,
        [],
        "        extern \"C\" \x7b".data,
        [],
        "        #ifdef __EMSCRIPTEN__".data,
        "        EMSCRIPTEN_KEEPALIVE".data,
        "        #endif".data,
        "        void jank_run_main() \x7b".data,
        "          auto fn = jank::runtime::make_box<jank_entry_t>();".data,
        "          fn->call();".data,
        "        \x7d".data,
        [],
        "        int main() \x7b".data,
        "          jank_run_main();".data,
        "          return 0;".data,
        "        \x7d".data,
        [],
        "        \x7d".data]
        ++ [[]])) := by
    unfold dedent
    rw [hren, hblank, hm2]
    rfl
  have hjFR : joinNl (("        ".data ++ (ch :: l0)) :: ls0) = "        ".data ++ (ch :: ftail) := by
    rw [← append_joinNl_cons]
    congr 1
    rw [← hsplitF, joinNl_splitOnNl]
  have hsh : joinNl ([[],
        "        #include \"".data ++ h ++ "\"".data,
        "        #ifdef __EMSCRIPTEN__".data,
        "        #  include <emscripten/emscripten.h>".data,
        "        #endif".data,
        []]
        ++ (("        ".data ++ (ch :: l0)) :: ls0)
        ++ ([[],
        "        namespace \x7b".data,
        "          using jank_entry_t = ::".data ++ ns ++ "::".data ++ en ++ ";".data,
        "        \x7d".data,
        [],
        "        extern \"C\" \x7b".data,
        [],
        "        #ifdef __EMSCRIPTEN__".data,
        "        EMSCRIPTEN_KEEPALIVE".data,
        "        #endif".data,
        "        void jank_run_main() \x7b".data,
        "          auto fn = jank::runtime::make_box<jank_entry_t>();".data,
        "          fn->call();".data,
        "        \x7d".data,
        [],
        "        int main() \x7b".data,
        "          jank_run_main();".data,
        "          return 0;".data,
        "        \x7d".data,
        [],
        "        \x7d".data]
        ++ [[]]))
      = ('\n' :: "        ".data) ++ ("#include \"".data ++ h ++ "\"\n        #ifdef __EMSCRIPTEN__\n        #  include <emscripten/emscripten.h>\n        #endif\n\n        ".data ++ (ch :: ftail) ++ "\n\n        namespace \x7b\n          using jank_entry_t = ::".data ++ ns ++ "::".data ++ en ++ ";\n        \x7d\n\n        extern \"C\" \x7b\n\n        #ifdef __EMSCRIPTEN__\n        EMSCRIPTEN_KEEPALIVE\n        #endif\n        void jank_run_main() \x7b\n          auto fn = jank::runtime::make_box<jank_entry_t>();\n          fn->call();\n        \x7d\n\n        int main() \x7b\n          jank_run_main();\n          return 0;\n        \x7d\n\n        \x7d".data) ++ [ '\n' ] := by
    rw [joinNl_append (([[],
        "        #include \"".data ++ h ++ "\"".data,
        "        #ifdef __EMSCRIPTEN__".data,
        "        #  include <emscripten/emscripten.h>".data,
        "        #endif".data,
        []] : List Str) ++ (("        ".data ++ (ch :: l0)) :: ls0))
        (([[],
        "        namespace \x7b".data,
        "          using jank_entry_t = ::".data ++ ns ++ "::".data ++ en ++ ";".data,
        "        \x7d".data,
        [],
        "        extern \"C\" \x7b".data,
        [],
        "        #ifdef __EMSCRIPTEN__".data,
        "        EMSCRIPTEN_KEEPALIVE".data,
        "        #endif".data,
        "        void jank_run_main() \x7b".data,
        "          auto fn = jank::runtime::make_box<jank_entry_t>();".data,
        "          fn->call();".data,
        "        \x7d".data,
        [],
        "        int main() \x7b".data,
        "          jank_run_main();".data,
        "          return 0;".data,
        "        \x7d".data,
        [],
        "        \x7d".data] : List Str) ++ [[]]) (by simp) (by simp)]
    rw [joinNl_append ([[],
        "        #include \"".data ++ h ++ "\"".data,
        "        #ifdef __EMSCRIPTEN__".data,
        "        #  include <emscripten/emscripten.h>".data,
        "        #endif".data,
        []] : List Str) (("        ".data ++ (ch :: l0)) :: ls0) (by simp) (by simp)]
    rw [hjFR]
    rw [show joinNl ([[],
        "        #include \"".data ++ h ++ "\"".data,
        "        #ifdef __EMSCRIPTEN__".data,
        "        #  include <emscripten/emscripten.h>".data,
        "        #endif".data,
        []] : List Str) = '\n' :: ("        #include \"".data ++ h ++ "\"".data ++ '\n' :: ("        #ifdef __EMSCRIPTEN__".data ++ '\n' :: ("        #  include <emscripten/emscripten.h>".data ++ '\n' :: ("        #endif".data ++ '\n' :: (([] : Str)))))) from rfl]
    rw [show joinNl (([[],
        "        namespace \x7b".data,
        "          using jank_entry_t = ::".data ++ ns ++ "::".data ++ en ++ ";".data,
        "        \x7d".data,
        [],
        "        extern \"C\" \x7b".data,
        [],
        "        #ifdef __EMSCRIPTEN__".data,
        "        EMSCRIPTEN_KEEPALIVE".data,
        "        #endif".data,
        "        void jank_run_main() \x7b".data,
        "          auto fn = jank::runtime::make_box<jank_entry_t>();".data,
        "          fn->call();".data,
        "        \x7d".data,
        [],
        "        int main() \x7b".data,
        "          jank_run_main();".data,
        "          return 0;".data,
        "        \x7d".data,
        [],
        "        \x7d".data] : List Str) ++ [[]])
        = '\n' :: ("        namespace \x7b".data ++ '\n' :: ("          using jank_entry_t = ::".data ++ ns ++ "::".data ++ en ++ ";".data ++ '\n' :: ("        \x7d".data ++ '\n' :: ('\n' :: ("        extern \"C\" \x7b".data ++ '\n' :: ('\n' :: ("        #ifdef __EMSCRIPTEN__".data ++ '\n' :: ("        EMSCRIPTEN_KEEPALIVE".data ++ '\n' :: ("        #endif".data ++ '\n' :: ("        void jank_run_main() \x7b".data ++ '\n' :: ("          auto fn = jank::runtime::make_box<jank_entry_t>();".data ++ '\n' :: ("          fn->call();".data ++ '\n' :: ("        \x7d".data ++ '\n' :: ('\n' :: ("        int main() \x7b".data ++ '\n' :: ("          jank_run_main();".data ++ '\n' :: ("          return 0;".data ++ '\n' :: ("        \x7d".data ++ '\n' :: ('\n' :: ("        \x7d".data ++ '\n' :: (([] : Str)))))))))))))))))))))) from rfl]
    rw [show ("\"\n        #ifdef __EMSCRIPTEN__\n        #  include <emscripten/emscripten.h>\n        #endif\n\n        ".data : Str)
        = "\"".data ++ ('\n' :: ("        #ifdef __EMSCRIPTEN__".data ++ ('\n' :: ("        #  include <emscripten/emscripten.h>".data ++ ('\n' :: ("        #endif".data ++ ('\n' :: ('\n' :: ("        ".data))))))))) from by decide]
    rw [show ("\n\n        namespace \x7b\n          using jank_entry_t = ::".data : Str)
        = '\n' :: ('\n' :: ("        namespace \x7b".data ++ ('\n' :: ("          using jank_entry_t = ::".data)))) from by decide]
    rw [show (";\n        \x7d\n\n        extern \"C\" \x7b\n\n        #ifdef __EMSCRIPTEN__\n        EMSCRIPTEN_KEEPALIVE\n        #endif\n        void jank_run_main() \x7b\n          auto fn = jank::runtime::make_box<jank_entry_t>();\n          fn->call();\n        \x7d\n\n        int main() \x7b\n          jank_run_main();\n          return 0;\n        \x7d\n\n        \x7d".data : Str)
        = ';' :: ('\n' :: ("        \x7d".data ++ ('\n' :: ('\n' :: ("        extern \"C\" \x7b".data ++ ('\n' :: ('\n' :: ("        #ifdef __EMSCRIPTEN__".data ++ ('\n' :: ("        EMSCRIPTEN_KEEPALIVE".data ++ ('\n' :: ("        #endif".data ++ ('\n' :: ("        void jank_run_main() \x7b".data ++ ('\n' :: ("          auto fn = jank::runtime::make_box<jank_entry_t>();".data ++ ('\n' :: ("          fn->call();".data ++ ('\n' :: ("        \x7d".data ++ ('\n' :: ('\n' :: ("        int main() \x7b".data ++ ('\n' :: ("          jank_run_main();".data ++ ('\n' :: ("          return 0;".data ++ ('\n' :: ("        \x7d".data ++ ('\n' :: ('\n' :: ("        \x7d".data)))))))))))))))))))))))))))))))) from by decide]
    rw [show ("        #include \"".data : Str) = "        ".data ++ "#include \"".data from by decide]
    simp only [List.append_assoc, List.cons_append, List.nil_append]
  have hstrip : pyStrip (joinNl ([[],
        "        #include \"".data ++ h ++ "\"".data,
        "        #ifdef __EMSCRIPTEN__".data,
        "        #  include <emscripten/emscripten.h>".data,
        "        #endif".data,
        []]
        ++ (("        ".data ++ (ch :: l0)) :: ls0)
        ++ ([[],
        "        namespace \x7b".data,
        "          using jank_entry_t = ::".data ++ ns ++ "::".data ++ en ++ ";".data,
        "        \x7d".data,
        [],
        "        extern \"C\" \x7b".data,
        [],
        "        #ifdef __EMSCRIPTEN__".data,
        "        EMSCRIPTEN_KEEPALIVE".data,
        "        #endif".data,
        "        void jank_run_main() \x7b".data,
        "          auto fn = jank::runtime::make_box<jank_entry_t>();".data,
        "          fn->call();".data,
        "        \x7d".data,
        [],
        "        int main() \x7b".data,
        "          jank_run_main();".data,
        "          return 0;".data,
        "        \x7d".data,
        [],
        "        \x7d".data]
        ++ [[]]))) = ("#include \"".data ++ h ++ "\"\n        #ifdef __EMSCRIPTEN__\n        #  include <emscripten/emscripten.h>\n        #endif\n\n        ".data ++ (ch :: ftail) ++ "\n\n        namespace \x7b\n          using jank_entry_t = ::".data ++ ns ++ "::".data ++ en ++ ";\n        \x7d\n\n        extern \"C\" \x7b\n\n        #ifdef __EMSCRIPTEN__\n        EMSCRIPTEN_KEEPALIVE\n        #endif\n        void jank_run_main() \x7b\n          auto fn = jank::runtime::make_box<jank_entry_t>();\n          fn->call();\n        \x7d\n\n        int main() \x7b\n          jank_run_main();\n          return 0;\n        \x7d\n\n        \x7d".data) := by
    rw [hsh]
    refine pyStrip_eq_of _ _ _ ?_ (by decide) (by decide) ?_ ?_
    · intro habs
      have h0 : (("#include \"".data ++ h ++ "\"\n        #ifdef __EMSCRIPTEN__\n        #  include <emscripten/emscripten.h>\n        #endif\n\n        ".data ++ (ch :: ftail) ++ "\n\n        namespace \x7b\n          using jank_entry_t = ::".data ++ ns ++ "::".data ++ en ++ ";\n        \x7d\n\n        extern \"C\" \x7b\n\n        #ifdef __EMSCRIPTEN__\n        EMSCRIPTEN_KEEPALIVE\n        #endif\n        void jank_run_main() \x7b\n          auto fn = jank::runtime::make_box<jank_entry_t>();\n          fn->call();\n        \x7d\n\n        int main() \x7b\n          jank_run_main();\n          return 0;\n        \x7d\n\n        \x7d".data) : Str).head? = some '#' := rfl
      rw [habs] at h0
      exact Option.noConfusion h0
    · intro c hc
      have h0 : (("#include \"".data ++ h ++ "\"\n        #ifdef __EMSCRIPTEN__\n        #  include <emscripten/emscripten.h>\n        #endif\n\n        ".data ++ (ch :: ftail) ++ "\n\n        namespace \x7b\n          using jank_entry_t = ::".data ++ ns ++ "::".data ++ en ++ ";\n        \x7d\n\n        extern \"C\" \x7b\n\n        #ifdef __EMSCRIPTEN__\n        EMSCRIPTEN_KEEPALIVE\n        #endif\n        void jank_run_main() \x7b\n          auto fn = jank::runtime::make_box<jank_entry_t>();\n          fn->call();\n        \x7d\n\n        int main() \x7b\n          jank_run_main();\n          return 0;\n        \x7d\n\n        \x7d".data) : Str).head? = some '#' := rfl
      rw [h0] at hc
      exact Option.some.inj hc ▸ (by decide : pyIsSpace '#' = false)
    · intro c hc
      rw [List.getLast?_append] at hc
      rw [show ((";\n        \x7d\n\n        extern \"C\" \x7b\n\n        #ifdef __EMSCRIPTEN__\n        EMSCRIPTEN_KEEPALIVE\n        #endif\n        void jank_run_main() \x7b\n          auto fn = jank::runtime::make_box<jank_entry_t>();\n          fn->call();\n        \x7d\n\n        int main() \x7b\n          jank_run_main();\n          return 0;\n        \x7d\n\n        \x7d".data) : Str).getLast? = some '\x7d' from by decide] at hc
      exact Option.some.inj hc ▸ (by decide : pyIsSpace '\x7d' = false)
  show pyStrip (dedent (renderTemplate h (ch :: ftail) ns en)) ++ [ '\n' ] = _
  rw [hded, hstrip]

/-- C6 (amended): for every fragment, namespace and entry name such that the
identifiers and header contain no newline, the fragment is non-empty,
trimmed at its head, and has no whitespace-only line, the `dedent` margin of
the rendered template is empty, and no input contains `int main()`, the
assembled artifact text is exactly: the header include line, the fixed
preamble, the fragment verbatim, the type alias `::<ns>::<entry>` bound to
`jank_entry_t`, and the fixed postamble; it contains exactly one occurrence
of `int main()`; and it ends in exactly one trailing newline. -/
theorem artifact_shape_amended (h f ns en : Str)
    (hh : '\n' ∉ h) (hns : '\n' ∉ ns) (hen : '\n' ∉ en)
    (hf : f ≠ []) (hfh : pyIsSpace (f.headD ' ') = false)
    (hflines : ∀ l ∈ splitOnNl f, wsOnly l = false)
    (hm : dedentMargin (renderTemplate h f ns en) = [])
    (cim1 : countOccur "int main()".data h = 0)
    (cim2 : countOccur "int main()".data f = 0)
    (cim3 : countOccur "int main()".data ns = 0)
    (cim4 : countOccur "int main()".data en = 0) :
    (buildDriver h f ns en =
      "#include \"".data ++ h ++
        "\"\n        #ifdef __EMSCRIPTEN__\n        #  include <emscripten/emscripten.h>\n        #endif\n\n        ".data ++
        f ++ "\n\n        namespace \x7b\n          using jank_entry_t = ::".data ++
        ns ++ "::".data ++ en ++
        ";\n        \x7d\n\n        extern \"C\" \x7b\n\n        #ifdef __EMSCRIPTEN__\n        EMSCRIPTEN_KEEPALIVE\n        #endif\n        void jank_run_main() \x7b\n          auto fn = jank::runtime::make_box<jank_entry_t>();\n          fn->call();\n        \x7d\n\n        int main() \x7b\n          jank_run_main();\n          return 0;\n        \x7d\n\n        \x7d".data ++ [ '\n' ]) ∧
    countOccur "int main()".data (buildDriver h f ns en) = 1 ∧
    (∃ t, buildDriver h f ns en = t ++ [ '\n' ] ∧ ∀ c, t.getLast? = some c → c ≠ '\n') := by
  have hdrv := driver_eq h f ns en hh hns hen hf hfh hflines hm
  refine ⟨hdrv, ?_, ?_⟩
  · rw [hdrv]
    simp only [List.append_assoc]
    rw [show ∀ Z : Str, "#include \"".data ++ Z = "#include ".data ++ ('"' :: Z) from fun Z => rfl]
    rw [countOccur_barrier "int main()".data (by decide) '"' (by decide)]
    rw [show countOccur "int main()".data "#include ".data = 0 from by decide]
    rw [show ∀ Z : Str, "\"\n        #ifdef __EMSCRIPTEN__\n        #  include <emscripten/emscripten.h>\n        #endif\n\n        ".data ++ Z = '"' :: ("\n        #ifdef __EMSCRIPTEN__\n        #  include <emscripten/emscripten.h>\n        #endif\n\n        ".data ++ Z) from fun Z => rfl]
    rw [countOccur_barrier "int main()".data (by decide) '"' (by decide)]
    rw [cim1]
    rw [show ∀ Z : Str, "\n        #ifdef __EMSCRIPTEN__\n        #  include <emscripten/emscripten.h>\n        #endif\n\n        ".data ++ Z
        = "\n        #ifdef __EMSCRIPTEN__\n        #  include <emscripten/emscripten.h>\n        #endif\n".data ++ ('\n' :: ("        ".data ++ Z)) from fun Z => rfl]
    rw [countOccur_barrier "int main()".data (by decide) '\n' (by decide)]
    rw [show countOccur "int main()".data "\n        #ifdef __EMSCRIPTEN__\n        #  include <emscripten/emscripten.h>\n        #endif\n".data = 0 from by decide]
    rw [countOccur_spaces8 "int main()".data 'i' "nt main()".data rfl (by decide)]
    rw [show ∀ Z : Str, "\n\n        namespace \x7b\n          using jank_entry_t = ::".data ++ Z = '\n' :: ("\n        namespace \x7b\n          using jank_entry_t = ::".data ++ Z) from fun Z => rfl]
    rw [countOccur_barrier "int main()".data (by decide) '\n' (by decide)]
    rw [cim2]
    rw [show ∀ Z : Str, "\n        namespace \x7b\n          using jank_entry_t = ::".data ++ Z = "\n        namespace \x7b\n          using jank_entry_t = :".data ++ (':' :: Z) from fun Z => rfl]
    rw [countOccur_barrier "int main()".data (by decide) ':' (by decide)]
    rw [show countOccur "int main()".data "\n        namespace \x7b\n          using jank_entry_t = :".data = 0 from by decide]
    rw [show ∀ Z : Str, "::".data ++ Z = ':' :: (':' :: Z) from fun Z => rfl]
    rw [countOccur_barrier "int main()".data (by decide) ':' (by decide)]
    rw [cim3]
    rw [countOccur_im_colon]
    rw [show ∀ Z : Str, ";\n        \x7d\n\n        extern \"C\" \x7b\n\n        #ifdef __EMSCRIPTEN__\n        EMSCRIPTEN_KEEPALIVE\n        #endif\n        void jank_run_main() \x7b\n          auto fn = jank::runtime::make_box<jank_entry_t>();\n          fn->call();\n        \x7d\n\n        int main() \x7b\n          jank_run_main();\n          return 0;\n        \x7d\n\n        \x7d".data ++ Z = ';' :: ("\n        \x7d\n\n        extern \"C\" \x7b\n\n        #ifdef __EMSCRIPTEN__\n        EMSCRIPTEN_KEEPALIVE\n        #endif\n        void jank_run_main() \x7b\n          auto fn = jank::runtime::make_box<jank_entry_t>();\n          fn->call();\n        \x7d\n\n        int main() \x7b\n          jank_run_main();\n          return 0;\n        \x7d\n\n        \x7d".data ++ Z) from fun Z => rfl]
    rw [countOccur_barrier "int main()".data (by decide) ';' (by decide)]
    rw [cim4]
    rw [show countOccur "int main()".data ("\n        \x7d\n\n        extern \"C\" \x7b\n\n        #ifdef __EMSCRIPTEN__\n        EMSCRIPTEN_KEEPALIVE\n        #endif\n        void jank_run_main() \x7b\n          auto fn = jank::runtime::make_box<jank_entry_t>();\n          fn->call();\n        \x7d\n\n        int main() \x7b\n          jank_run_main();\n          return 0;\n        \x7d\n\n        \x7d".data ++ [ '\n' ]) = 1 from by decide]
  · refine ⟨"#include \"".data ++ h ++ "\"\n        #ifdef __EMSCRIPTEN__\n        #  include <emscripten/emscripten.h>\n        #endif\n\n        ".data ++ f ++ "\n\n        namespace \x7b\n          using jank_entry_t = ::".data ++ ns
        ++ "::".data ++ en ++ ";\n        \x7d\n\n        extern \"C\" \x7b\n\n        #ifdef __EMSCRIPTEN__\n        EMSCRIPTEN_KEEPALIVE\n        #endif\n        void jank_run_main() \x7b\n          auto fn = jank::runtime::make_box<jank_entry_t>();\n          fn->call();\n        \x7d\n\n        int main() \x7b\n          jank_run_main();\n          return 0;\n        \x7d\n\n        \x7d".data, hdrv, ?_⟩
    intro c hc
    rw [List.getLast?_append] at hc
    rw [show ((";\n        \x7d\n\n        extern \"C\" \x7b\n\n        #ifdef __EMSCRIPTEN__\n        EMSCRIPTEN_KEEPALIVE\n        #endif\n        void jank_run_main() \x7b\n          auto fn = jank::runtime::make_box<jank_entry_t>();\n          fn->call();\n        \x7d\n\n        int main() \x7b\n          jank_run_main();\n          return 0;\n        \x7d\n\n        \x7d".data) : Str).getLast? = some '\x7d' from by decide] at hc
    have hcc : (some '\x7d' : Option Char) = some c := hc
    obtain rfl := Option.some.inj hcc
    decide

/-- Witness for the amended artifact-shape theorem at the demo inputs. -/
theorem artifact_shape_amended_witness :
    countOccur "int main()".data
      (buildDriver "../minimal_jank_runtime.hpp".data
        "namespace demo_42 \x7b\nstruct entry_fn : jank::runtime::obj::jit_function \x7b\n  void call() \x7b\x7d\n\x7d;\n\x7d".data
        "demo_42".data "entry_fn".data) = 1 :=
  (artifact_shape_amended "../minimal_jank_runtime.hpp".data
    "namespace demo_42 \x7b\nstruct entry_fn : jank::runtime::obj::jit_function \x7b\n  void call() \x7b\x7d\n\x7d;\n\x7d".data
    "demo_42".data "entry_fn".data
    (by decide) (by decide) (by decide) (by decide) (by decide) (by decide)
    (by decide) (by decide) (by decide) (by decide) (by decide)).2.1
